import Mathlib

/-!
Verification of the gamepad bridge (src/src/opendlv-device-gamepad.cpp)
against its design specification.

Modelling conventions.  The float arithmetic of the axis computation acts on
small integers that floats represent exactly, so the decoded value is modelled
over the rationals.  Raw joystick values are Int with explicit range
hypotheses where the signed 16-bit width matters.  The C expression
`MAX_AXES_VALUE - MIN_AXES_VALUE` mixes uint32_t and int32_t and wraps to
65535, which equals the plain difference 32767 - (-32768), so the model uses
the direct subtraction.  The mask `js.type & ~JS_EVENT_INIT` keeps the low
seven bits of the type byte, which equals `etype % 128`.
-/

/-- linux/joystick.h event-type constant for button events. -/
def JS_EVENT_BUTTON : Nat := 1

/-- linux/joystick.h event-type constant for axis events. -/
def JS_EVENT_AXIS : Nat := 2

/-- linux/joystick.h event-type flag for synthetic initial events. -/
def JS_EVENT_INIT : Nat := 128

/-- device-reported minimum raw axis value (line 49 of the source). -/
def MIN_AXES_VALUE : Int := -32768

/-- device-reported maximum raw axis value (line 50 of the source). -/
def MAX_AXES_VALUE : Int := 32767

/-- errno value for a would-block read on Linux. -/
def EAGAIN : Nat := 11

/-- command-line configuration captured by the reading thread. -/
structure Config where
  axisLeftUpDown : Nat
  axisRightUpDown : Nat
  deriving DecidableEq

/-- struct js_event: type byte, number byte, signed 16-bit value. -/
structure JsEvent where
  etype : Nat
  number : Nat
  value : Int
  deriving DecidableEq

/-- shared cell guarded by valuesMutex: left, right, state, hasError. -/
structure GamepadState where
  left : ℚ
  right : ℚ
  state : Int
  hasError : Bool
  deriving DecidableEq

/-- initial values of the shared cell in main: 0, 0, -1, false. -/
def initialState : GamepadState :=
  { left := 0, right := 0, state := -1, hasError := false }

/-- percent-then-scale computation applied to a raw axis value:
1.0f - 2.0f * (value - MIN_AXES_VALUE) / (MAX_AXES_VALUE - MIN_AXES_VALUE). -/
def axisValue (v : Int) : ℚ :=
  1 - 2 * (((v : ℚ) - (MIN_AXES_VALUE : ℚ)) / ((MAX_AXES_VALUE : ℚ) - (MIN_AXES_VALUE : ℚ)))

/-- first if of the JS_EVENT_AXIS case: left pedal. -/
def applyLeftAxis (cfg : Config) (s : GamepadState) (e : JsEvent) : GamepadState :=
  if cfg.axisLeftUpDown = e.number then { s with left := axisValue e.value } else s

/-- second if of the JS_EVENT_AXIS case: right pedal.  The source uses two
independent ifs, not an else-if, so both can fire on one event. -/
def applyRightAxis (cfg : Config) (s : GamepadState) (e : JsEvent) : GamepadState :=
  if cfg.axisRightUpDown = e.number then { s with right := axisValue e.value } else s

/-- body of the read loop: switch (js.type & ~JS_EVENT_INIT).  The mask keeps
the low seven bits, hence etype % 128.  Button events mutate state only on
value == 1; all other cases leave the cell untouched. -/
def applyEvent (cfg : Config) (s : GamepadState) (e : JsEvent) : GamepadState :=
  if e.etype % 128 = JS_EVENT_AXIS then
    applyRightAxis cfg (applyLeftAxis cfg s e) e
  else if e.etype % 128 = JS_EVENT_BUTTON then
    (if e.value = 1 then { s with state := (e.number : Int) } else s)
  else
    s

/-- one FD_ISSET critical section: the decoder is folded over the events the
non-blocking reads returned, then the errno check sets hasError when the
final read failed with something other than would-block. -/
def drainUnderLock (cfg : Config) (s : GamepadState) (events : List JsEvent)
    (errno : Nat) : GamepadState :=
  let s1 := events.foldl (applyEvent cfg) s
  if errno ≠ EAGAIN then { s1 with hasError := true } else s1

/-- message handed to od4.send together with its sampleTimeStamp key. -/
inductive Cmd
  | pedalPositionRequest (position : ℚ) (key : Nat)
  | switchStateRequest (st : Int) (key : Nat)
  deriving DecidableEq

/-- commands the timeTrigger lambda sends, in source order: when state == 0,
the left pedal at key 0 and right pedal at key 10 first, then the switch
state at key 99 unconditionally. -/
def tickEmits (s : GamepadState) : List Cmd :=
  (if s.state = 0 then
    [Cmd.pedalPositionRequest s.left 0, Cmd.pedalPositionRequest s.right 10]
  else []) ++ [Cmd.switchStateRequest s.state 99]

/-- return value of the timeTrigger lambda. -/
def tickReturn (s : GamepadState) : Bool := !s.hasError

/-- atomic actions of the emitter lambda, used to locate its critical section. -/
inductive EAct
  | acquire
  | release
  | send (c : Cmd)
  deriving DecidableEq

/-- actions the emitter performs while holding valuesMutex: the lock_guard
spans the whole lambda body, so every od4.send sits inside the critical
section. -/
def tickUnderLock (s : GamepadState) : List EAct :=
  (tickEmits s).map EAct.send

/-- full action trace of one emitter invocation. -/
def tickTrace (s : GamepadState) : List EAct :=
  [EAct.acquire] ++ tickUnderLock s ++ [EAct.release]

/-- atomic actions inside the poller critical section. -/
inductive PAct
  | deviceRead
  | decodeEvent
  | errnoCheck
  | stderrWrite
  deriving DecidableEq

/-- true for actions that perform input or output: the read system call and
the stderr diagnostic. -/
def PAct.isIoAction : PAct → Bool
  | PAct.deviceRead => true
  | PAct.stderrWrite => true
  | PAct.decodeEvent => false
  | PAct.errnoCheck => false

/-- actions performed while the poller holds the lock in one FD_ISSET branch:
each successful read is followed by decoding, the final failed read ends the
while loop, then the errno check runs and, on a real error, the stderr
diagnostic is written. -/
def pollerUnderLock : List JsEvent → Nat → List PAct
  | [], errno =>
    [PAct.deviceRead, PAct.errnoCheck] ++
      (if errno ≠ EAGAIN then [PAct.stderrWrite] else [])
  | _ :: events, errno =>
    PAct.deviceRead :: PAct.decodeEvent :: pollerUnderLock events errno

/-- neutral messages main sends after the timeTrigger call: position 0.0 at
keys 0 and 10, switch state -1 at key 99. -/
def neutralBurst : List Cmd :=
  [Cmd.pedalPositionRequest 0 0, Cmd.pedalPositionRequest 0 10,
   Cmd.switchStateRequest (-1) 99]

/-- Modelled from the spec: cluon-complete.hpp (OD4Session.timeTrigger) is not
under src.  Per sections 4.4 and 5 the Emitter is driven call/return by the
Publisher scheduler at the configured frequency until the delegate returns
continue = false; the timeTrigger call thus produces the tick emissions for
the sequence of snapshots observed at the ticks and only then returns, after
which main continues with the statements that follow the call. -/
def timeTriggerRun (snaps : List GamepadState) : List Cmd :=
  (snaps.map tickEmits).flatten

/-- emission order of main: inside the isRunning branch the timeTrigger call
comes first and the neutral send statements follow it; when the session is
not running the whole branch is skipped and nothing is emitted. -/
def mainEmissions (running : Bool) (snaps : List GamepadState) : List Cmd :=
  if running then timeTriggerRun snaps ++ neutralBurst else []

/-- atomic actions of the shutdown path of main. -/
inductive SAct
  | acquire
  | setStopFlag
  | joinPoller
  | unlock
  | closeDevice
  deriving DecidableEq

/-- shutdown sequence of main, lines 187-193: the lock_guard scope contains
both the hasError assignment and the join, so the mutex is released only
after the join; close follows the block. -/
def mainShutdown : List SAct :=
  [SAct.acquire, SAct.setStopFlag, SAct.joinPoller, SAct.unlock, SAct.closeDevice]

/-- return code of main by branch: retCode starts at 0, the usage branch sets
it to 1, the open-failure branch only prints the diagnostic and leaves it at
its initial 0, and the success branch assigns 0 at the end. -/
def mainRetCode (argsOk : Bool) (openOk : Bool) : Int :=
  if argsOk = false then 1
  else if openOk = false then 0
  else 0

/-- whether main starts the reading thread and the session, by branch: only
when the arguments are present and the device open succeeded. -/
def startsActors (argsOk : Bool) (openOk : Bool) : Bool :=
  argsOk && openOk

/-- every mutation of the shared cell performed by the running system: a
poller critical section, an emitter tick (read-only), or the shutdown
assignment hasError = true. -/
inductive SysStep : GamepadState → GamepadState → Prop
  | poll (cfg : Config) (events : List JsEvent) (errno : Nat) (s : GamepadState) :
      SysStep s (drainUnderLock cfg s events errno)
  | tick (s : GamepadState) : SysStep s s
  | stop (s : GamepadState) : SysStep s { s with hasError := true }

theorem applyLeftAxis_hasError (cfg : Config) (s : GamepadState) (e : JsEvent) :
    (applyLeftAxis cfg s e).hasError = s.hasError := by
  unfold applyLeftAxis
  split <;> rfl

theorem applyRightAxis_hasError (cfg : Config) (s : GamepadState) (e : JsEvent) :
    (applyRightAxis cfg s e).hasError = s.hasError := by
  unfold applyRightAxis
  split <;> rfl

theorem applyEvent_hasError (cfg : Config) (s : GamepadState) (e : JsEvent) :
    (applyEvent cfg s e).hasError = s.hasError := by
  unfold applyEvent
  split
  · rw [applyRightAxis_hasError, applyLeftAxis_hasError]
  · split
    · split <;> rfl
    · rfl

theorem foldl_applyEvent_hasError (cfg : Config) (events : List JsEvent)
    (s : GamepadState) :
    (events.foldl (applyEvent cfg) s).hasError = s.hasError := by
  induction events generalizing s with
  | nil => rfl
  | cons e evs ih => rw [List.foldl_cons, ih, applyEvent_hasError]

theorem axisValue_eq (v : Int) :
    axisValue v = 1 - 2 * (((v : ℚ) + 32768) / 65535) := by
  unfold axisValue MIN_AXES_VALUE MAX_AXES_VALUE
  norm_num

theorem axisValue_bounds (v : Int) (h1 : -32768 ≤ v) (h2 : v ≤ 32767) :
    -1 ≤ axisValue v ∧ axisValue v ≤ 1 := by
  have hv1 : (-32768 : ℚ) ≤ (v : ℚ) := by exact_mod_cast h1
  have hv2 : ((v : ℚ)) ≤ 32767 := by exact_mod_cast h2
  have h0 : (0 : ℚ) ≤ ((v : ℚ) + 32768) / 65535 :=
    div_nonneg (by linarith) (by norm_num)
  have hle : ((v : ℚ) + 32768) / 65535 ≤ 1 := by
    rw [div_le_one (by norm_num : (0 : ℚ) < 65535)]
    linarith
  rw [axisValue_eq]
  constructor <;> linarith

theorem axisValue_min : axisValue (-32768) = 1 := by
  rw [axisValue_eq]
  norm_num

theorem axisValue_max : axisValue 32767 = -1 := by
  rw [axisValue_eq]
  norm_num

theorem axisValue_zero : axisValue 0 = -(1 / 65535) := by
  rw [axisValue_eq]
  norm_num

/-- C1 (amended): for an axis event whose index equals the configured left
(resp. right) axis index, provided the two configured axis indices are
distinct and the raw value v lies in [-32768, 32767], the decoder sets
leftPedal (resp. rightPedal) to 1 - 2*(v+32768)/65535, which lies in [-1, 1],
with v = -32768 giving 1, v = 32767 giving -1 and v = 0 giving -1/65535
(approximately 0), and leaves all other fields of the state unchanged. -/
theorem C1_axis_pedal_decode (cfg : Config) (s : GamepadState) (e : JsEvent)
    (hne : cfg.axisLeftUpDown ≠ cfg.axisRightUpDown)
    (htype : e.etype % 128 = JS_EVENT_AXIS)
    (h1 : -32768 ≤ e.value) (h2 : e.value ≤ 32767) :
    (e.number = cfg.axisLeftUpDown →
      applyEvent cfg s e = { s with left := axisValue e.value }) ∧
    (e.number = cfg.axisRightUpDown →
      applyEvent cfg s e = { s with right := axisValue e.value }) ∧
    (-1 ≤ axisValue e.value ∧ axisValue e.value ≤ 1) ∧
    axisValue (-32768) = 1 ∧ axisValue 32767 = -1 ∧ axisValue 0 = -(1 / 65535) := by
  refine ⟨?_, ?_, axisValue_bounds e.value h1 h2, axisValue_min, axisValue_max,
    axisValue_zero⟩
  · intro hL
    simp [applyEvent, htype, applyLeftAxis, applyRightAxis, hL, Ne.symm hne]
  · intro hRt
    simp [applyEvent, htype, applyLeftAxis, applyRightAxis, hRt, hne]

/-- C1 witness: concrete application at config (0, 1), axis event number 0,
value 0, starting from the initial state. -/
theorem C1_witness :
    applyEvent { axisLeftUpDown := 0, axisRightUpDown := 1 } initialState
        { etype := 2, number := 0, value := 0 } =
      { initialState with left := axisValue 0 } :=
  (C1_axis_pedal_decode { axisLeftUpDown := 0, axisRightUpDown := 1 } initialState
      { etype := 2, number := 0, value := 0 }
      (by decide) (by decide) (by decide) (by decide)).1 rfl

/-- C1 counterexample: when the two configured axis indices coincide (both 1),
an axis event whose index equals the configured left axis index also changes
rightPedal, so the claim that all other fields are unchanged fails. -/
theorem C1_counterexample :
    ({ axisLeftUpDown := 1, axisRightUpDown := 1 } : Config).axisLeftUpDown =
      ({ etype := 2, number := 1, value := -32768 } : JsEvent).number ∧
    (applyEvent { axisLeftUpDown := 1, axisRightUpDown := 1 } initialState
        { etype := 2, number := 1, value := -32768 }).right ≠ initialState.right := by
  refine ⟨rfl, ?_⟩
  have h : (applyEvent { axisLeftUpDown := 1, axisRightUpDown := 1 } initialState
      { etype := 2, number := 1, value := -32768 }).right = axisValue (-32768) := by
    simp [applyEvent, applyLeftAxis, applyRightAxis, JS_EVENT_AXIS]
  rw [h, axisValue_min]
  simp [initialState]

/-- C2: each tick of the emitter sends, when the snapshot state is 0, exactly
the left pedal position at key 0, the right pedal position at key 10 and the
switch state at key 99 in that order; when the state is nonzero, exactly the
switch state at key 99; and it always returns the negation of hasError. -/
theorem C2_tick_behavior (s : GamepadState) :
    (s.state = 0 → tickEmits s =
      [Cmd.pedalPositionRequest s.left 0, Cmd.pedalPositionRequest s.right 10,
       Cmd.switchStateRequest 0 99]) ∧
    (s.state ≠ 0 → tickEmits s = [Cmd.switchStateRequest s.state 99]) ∧
    tickReturn s = !s.hasError := by
  refine ⟨fun h => ?_, fun h => ?_, rfl⟩
  · simp [tickEmits, h]
  · simp [tickEmits, h]

/-- C2 witness: concrete ticks at a snapshot with state 0 and at one with
state 3. -/
theorem C2_witness :
    tickEmits { left := 1 / 2, right := -(1 / 2), state := 0, hasError := false } =
      [Cmd.pedalPositionRequest (1 / 2) 0, Cmd.pedalPositionRequest (-(1 / 2)) 10,
       Cmd.switchStateRequest 0 99] ∧
    tickEmits { left := 0, right := 0, state := 3, hasError := false } =
      [Cmd.switchStateRequest 3 99] ∧
    tickReturn { left := 0, right := 0, state := 3, hasError := false } = true :=
  ⟨(C2_tick_behavior _).1 rfl, (C2_tick_behavior _).2.1 (by decide),
    (C2_tick_behavior _).2.2⟩

/-- C3 counterexample: with the session running and a single tick at a
snapshot with state 3, the first emitted command is that tick's switch-state
command, not the first command of the neutral burst, so the burst does not
precede every timed tick as claimed. -/
theorem C3_counterexample :
    (mainEmissions true [{ left := 0, right := 0, state := 3, hasError := false }]).head? =
      some (Cmd.switchStateRequest 3 99) ∧
    neutralBurst.head? = some (Cmd.pedalPositionRequest 0 0) ∧
    mainEmissions true [{ left := 0, right := 0, state := 3, hasError := false }] ≠
      neutralBurst ++
        timeTriggerRun [{ left := 0, right := 0, state := 3, hasError := false }] := by
  refine ⟨?_, rfl, ?_⟩
  · simp [mainEmissions, timeTriggerRun, tickEmits, neutralBurst]
  · intro h
    have hh := congrArg List.head? h
    simp [mainEmissions, timeTriggerRun, tickEmits, neutralBurst] at hh

/-- C3 (amended): after the Publisher session becomes active, the timed-tick
emissions come first, and the single neutral burst (pedal 0.0 at key 0, pedal
0.0 at key 10, switch state -1 at key 99) is emitted once the tick loop has
terminated: the burst occupies exactly the final three positions of the
emission order, following every timed tick. -/
theorem C3_burst_after_ticks (snaps : List GamepadState) :
    mainEmissions true snaps = timeTriggerRun snaps ++ neutralBurst ∧
    (mainEmissions true snaps).drop (timeTriggerRun snaps).length = neutralBurst := by
  refine ⟨rfl, ?_⟩
  simp [mainEmissions, List.drop_left]

/-- C4: with valid command-line arguments and a failing device open, main
prints the diagnostic but leaves retCode at its initial 0 and exits with
status zero, contradicting the claimed nonzero exit; the missing-argument
branch does return 1, and no actor is started on open failure. -/
theorem C4_open_failure_exit_code :
    mainRetCode true false = 0 ∧
    startsActors true false = false ∧
    mainRetCode false true = 1 ∧
    mainRetCode false false = 1 := by
  decide

/-- C5 counterexample: in the shutdown sequence of main the join of the
poller thread happens before the mutex is released, because the lock_guard
scope encloses the join; the claimed sequence with the release before the
join does not match the code. -/
theorem C5_counterexample :
    List.findIdx (fun a => a = SAct.joinPoller) mainShutdown <
      List.findIdx (fun a => a = SAct.unlock) mainShutdown ∧
    mainShutdown ≠
      [SAct.acquire, SAct.setStopFlag, SAct.unlock, SAct.joinPoller,
       SAct.closeDevice] := by
  decide

/-- C5 (amended): on shutdown the coordinator acquires the lock, sets the
stop-request flag, then joins the Poller while still holding the lock; the
lock is released only after the join, and the device handle is closed only
after the join has completed. -/
theorem C5_shutdown_order :
    mainShutdown =
      [SAct.acquire, SAct.setStopFlag, SAct.joinPoller, SAct.unlock,
       SAct.closeDevice] ∧
    List.findIdx (fun a => a = SAct.setStopFlag) mainShutdown <
      List.findIdx (fun a => a = SAct.joinPoller) mainShutdown ∧
    List.findIdx (fun a => a = SAct.joinPoller) mainShutdown <
      List.findIdx (fun a => a = SAct.closeDevice) mainShutdown := by
  decide

/-- C6: a button press event with index k sets state to k and changes nothing
else; a button event with value 0 (release) performs no mutation at all, so a
release following a press with index k leaves state = k. -/
theorem C6_button_press_release (cfg : Config) (s : GamepadState) (k j : Nat) :
    applyEvent cfg s { etype := JS_EVENT_BUTTON, number := k, value := 1 } =
      { s with state := (k : Int) } ∧
    applyEvent cfg s { etype := JS_EVENT_BUTTON, number := j, value := 0 } = s ∧
    (applyEvent cfg
        (applyEvent cfg s { etype := JS_EVENT_BUTTON, number := k, value := 1 })
        { etype := JS_EVENT_BUTTON, number := j, value := 0 }).state = (k : Int) := by
  refine ⟨?_, ?_, ?_⟩ <;>
    simp [applyEvent, JS_EVENT_BUTTON, JS_EVENT_AXIS]

/-- C7: the error flag is write-once-true: it starts false, and every step of
the system (a poller critical section, a tick, or the shutdown assignment)
either leaves it unchanged or sets it to true; no step resets it from true to
false. -/
theorem C7_error_flag_write_once :
    initialState.hasError = false ∧
    ∀ s t : GamepadState, SysStep s t → s.hasError = true → t.hasError = true := by
  refine ⟨rfl, ?_⟩
  intro s t hstep h
  cases hstep with
  | poll cfg events errno s =>
    unfold drainUnderLock
    split
    · rfl
    · rw [foldl_applyEvent_hasError]
      exact h
  | tick s => exact h
  | stop s => rfl

/-- C7 witness: concrete application at a tick step from a state whose error
flag is already true. -/
theorem C7_witness :
    ({ left := 0, right := 0, state := -1, hasError := true } : GamepadState).hasError =
      true :=
  C7_error_flag_write_once.2 _ _
    (SysStep.tick { left := 0, right := 0, state := -1, hasError := true }) rfl

/-- C8 counterexample: when the session never runs, main emits nothing at
all, so the claimed neutral-state emission attempt (a nonempty burst) does
not happen. -/
theorem C8_counterexample :
    mainEmissions false [] = [] ∧ neutralBurst ≠ [] := by
  refine ⟨rfl, ?_⟩
  simp [neutralBurst]

/-- C8 (amended): if the Publisher session never reaches a running state, the
periodic loop is never started and no emission occurs at all, the neutral
burst included, because the send statements sit inside the isRunning branch;
the system still performs the shutdown that joins the Poller and only then
closes the device handle. -/
theorem C8_not_running_no_emission (snaps : List GamepadState) :
    mainEmissions false snaps = [] ∧
    SAct.closeDevice ∈ mainShutdown ∧
    List.findIdx (fun a => a = SAct.joinPoller) mainShutdown <
      List.findIdx (fun a => a = SAct.closeDevice) mainShutdown := by
  exact ⟨rfl, by decide, by decide⟩

/-- C9 counterexample: the poller performs device reads, which are
input/output, while holding the lock, and the emitter's send of the
switch-state command sits inside its critical section, so neither half of the
claim holds. -/
theorem C9_counterexample :
    PAct.deviceRead ∈ pollerUnderLock [] 5 ∧
    PAct.isIoAction PAct.deviceRead = true ∧
    EAct.send (Cmd.switchStateRequest 3 99) ∈
      tickUnderLock { left := 0, right := 0, state := 3, hasError := false } := by
  refine ⟨?_, rfl, ?_⟩
  · simp [pollerUnderLock]
  · simp [tickUnderLock, tickEmits]

/-- C9 (amended): while holding the shared lock the Poller performs the
bounded drain, which includes the non-blocking device reads (input/output
under the lock), with at most 2n + 3 actions for n drained events; and the
Emitter performs its command emission inside the critical section: every
command of the tick is sent while the lock is held. -/
theorem C9_critical_section_contents (s : GamepadState) (events : List JsEvent)
    (errno : Nat) :
    (∀ c ∈ tickEmits s, EAct.send c ∈ tickUnderLock s) ∧
    PAct.deviceRead ∈ pollerUnderLock events errno ∧
    (pollerUnderLock events errno).length ≤ 2 * events.length + 3 := by
  refine ⟨?_, ?_, ?_⟩
  · intro c hc
    exact List.mem_map_of_mem EAct.send hc
  · induction events with
    | nil => simp [pollerUnderLock]
    | cons e evs ih => simp [pollerUnderLock, ih]
  · induction events with
    | nil =>
      unfold pollerUnderLock
      split <;> simp
    | cons e evs ih =>
      unfold pollerUnderLock
      simp only [List.length_cons]
      omega

/-- C9 witness: concrete instance at a snapshot with state 3 and an empty
drain with errno EAGAIN. -/
theorem C9_witness :
    EAct.send (Cmd.switchStateRequest 3 99) ∈
      tickUnderLock { left := 0, right := 0, state := 3, hasError := false } ∧
    PAct.deviceRead ∈ pollerUnderLock [] 11 :=
  ⟨(C9_critical_section_contents
        { left := 0, right := 0, state := 3, hasError := false } [] 11).1
      (Cmd.switchStateRequest 3 99) (by simp [tickEmits]),
    (C9_critical_section_contents
        { left := 0, right := 0, state := 3, hasError := false } [] 11).2.1⟩

/-- C10: when the drain ends with a non-would-block errno, the state after
the critical section equals the fold of the decoder over the events read
before the error with the error flag set in that same critical section; the
decoder itself never touches the flag, so the earlier mutations stand with no
rollback. -/
theorem C10_drain_error_no_rollback (cfg : Config) (s : GamepadState)
    (events : List JsEvent) (errno : Nat) (h : errno ≠ EAGAIN) :
    drainUnderLock cfg s events errno =
      { events.foldl (applyEvent cfg) s with hasError := true } ∧
    (events.foldl (applyEvent cfg) s).hasError = s.hasError := by
  refine ⟨?_, foldl_applyEvent_hasError cfg events s⟩
  simp [drainUnderLock, h]

/-- C10 witness: concrete drain of one button-press event ending with errno 5
(EIO): the press mutation stands and the flag is set. -/
theorem C10_witness :
    drainUnderLock { axisLeftUpDown := 0, axisRightUpDown := 1 } initialState
        [{ etype := 1, number := 4, value := 1 }] 5 =
      { left := 0, right := 0, state := 4, hasError := true } := by
  have h := (C10_drain_error_no_rollback { axisLeftUpDown := 0, axisRightUpDown := 1 }
      initialState [{ etype := 1, number := 4, value := 1 }] 5 (by decide)).1
  rw [h]
  rfl
